import Mathlib

/-!
# FocusFlow job-pipeline engine: a shallow embedding with verified properties

This file embeds the core of `main.py` (the job store and pipeline
orchestrator of the FocusFlow audio-summarization app) into Lean and proves
properties of the embedding.

Modelling conventions:
* Python's job dict becomes the structure `Job`; the status strings become
  the inductive `JobStatus`.
* Network I/O is modelled by explicit environments: each external call site
  is given its outcome (a parsed response, or an exception carried as an
  `Except` error).  Python exceptions are `(typeName, message)` pairs.
* Regular-expression searches over response bodies that the claims never
  exercise (the audio-URL regex over a raw API text body, the three HTML
  scrape passes of the resolver) are modelled at the parse-result level:
  the environment carries the extraction results, while all the control
  flow around them is translated directly from the source.  Pattern
  searches that the claims do exercise (`extract_title_from_summary`'s
  regexes, `_guess_ext`, share-token extraction) are implemented in full.
* `time.time()` values are exact rationals; the `%.1f` percentage text in
  progress lines is rendered by round-half-up over exact rationals (the
  claims only concern the bytes values of progress events).
-/

/-- Status strings of a job (`"queued"`, ..., `"error"` in `main.py`). -/
inductive JobStatus where
  | queued
  | running
  | downloading
  | transcribing
  | summarizing
  | completed
  | error
deriving DecidableEq, Repr

/-- The job record created in `AppState.add_job` (a Python dict there).
`resolved_url` is `Option` because the key is absent until `run_job` sets it. -/
structure Job where
  id : String
  url : String
  status : JobStatus
  created_at : Nat
  created_label : String
  meeting_date : String
  title : String
  path : String
  error : String
  file_path : String
  transcript : String
  summary : String
  logs : List String
  resolved_url : Option String
deriving DecidableEq, Repr

/-- `AppState._append_log`: append one line to the job's log list. -/
def appendLog (j : Job) (line : String) : Job :=
  { j with logs := j.logs ++ [line] }

/-- Append a batch of log lines (several `_append_log` calls in a row). -/
def appendLogs (j : Job) (lines : List String) : Job :=
  { j with logs := j.logs ++ lines }

/-- A Python exception as `(type name, message)`; `f"{type(e).__name__}: {e}"`
in `run_job`'s handler renders it via `pyErrStr`. -/
def PyErr : Type := String × String
deriving instance DecidableEq, Repr for PyErr

def pyErrStr (e : PyErr) : String := e.1 ++ ": " ++ e.2

/-- Python truthiness of an `Optional[str]` (`None` and `""` are falsy). -/
def truthyOpt : Option String → Bool
  | none => false
  | some s => !(s = "")

/- ## String helpers (Python `in`, `str.lower`, etc.) -/

/-- `startsWithL s p`: the char list `p` is an initial segment of `s`. -/
def startsWithL : List Char → List Char → Bool
  | _, [] => true
  | [], _ :: _ => false
  | c :: cs, p :: ps => c = p && startsWithL cs ps

/-- Substring containment on char lists (Python's `in` on strings). -/
def containsL : List Char → List Char → Bool
  | [], pat => startsWithL [] pat
  | s@(_ :: rest), pat => startsWithL s pat || containsL rest pat

/-- Python's substring test `pat in s`. -/
def strContains (s pat : String) : Bool :=
  containsL s.toList pat.toList

/-- Python's `\s` character class (`[ \t\n\r\f\v]`). -/
def isPyWS (c : Char) : Bool :=
  c = ' ' || c = '\t' || c = '\n' || c = '\r' || c = '\x0b' || c = '\x0c'

/-- Python's `str.strip()`: drop whitespace from both ends. -/
def pyStrip (s : String) : String :=
  String.mk (((s.toList.dropWhile isPyWS).reverse.dropWhile isPyWS).reverse)

/-- Python's `str.lower()` (ASCII case folding, as every pattern here is
ASCII). -/
def pyLower (s : String) : String :=
  String.mk (s.toList.map Char.toLower)

/-- `s.startswith(p)`. -/
def strStartsWith (s p : String) : Bool :=
  startsWithL s.toList p.toList

/-- `s.endswith(p)`. -/
def strEndsWith (s p : String) : Bool :=
  startsWithL s.toList.reverse p.toList.reverse

/-- Python's `s.replace(pat, rep)` for a non-empty `pat` (every use site
replaces the 6-char literal backslash-u002F); each step consumes at least
one char, so the input length is enough fuel. -/
def replaceLAux : Nat → List Char → List Char → List Char → List Char
  | 0, s, _, _ => s
  | fuel + 1, s, pat, rep =>
    match s with
    | [] => []
    | c :: rest =>
      if !pat.isEmpty && startsWithL s pat then
        rep ++ replaceLAux fuel (s.drop pat.length) pat rep
      else c :: replaceLAux fuel rest pat rep

def strReplace (s pat rep : String) : String :=
  String.mk (replaceLAux s.toList.length s.toList pat.toList rep.toList)

/-- Python's `s.split(chr(10))`: split on newlines, keeping empty parts. -/
def pySplitLinesAux : List Char → List Char → List String
  | [], acc => [String.mk acc.reverse]
  | c :: rest, acc =>
    if c = '\n' then String.mk acc.reverse :: pySplitLinesAux rest []
    else pySplitLinesAux rest (c :: acc)

def pySplitLines (s : String) : List String :=
  pySplitLinesAux s.toList []

/- ## JSON values (`json.loads` results) -/

/-- A parsed JSON value.  Numbers are modelled as integers (no claim
inspects a fractional number). -/
inductive Json where
  | null
  | bool (b : Bool)
  | num (n : Int)
  | str (s : String)
  | arr (items : List Json)
  | obj (fields : List (String × Json))

/-- Association-list lookup used by `Json.obj` (Python `dict.get(k)`;
`none` both for a missing key — Python `None` default). -/
def lookupKV : List (String × Json) → String → Option Json
  | [], _ => none
  | (k2, v) :: rest, k => if k2 = k then some v else lookupKV rest k

/-- `obj.get(k)` — `none` when `j` is not a dict or the key is missing. -/
def jget : Json → String → Option Json
  | .obj kvs, k => lookupKV kvs k
  | _, _ => none

/-- Python truthiness of a JSON value. -/
def jtruthy : Json → Bool
  | .null => false
  | .bool b => b
  | .num n => !(n = 0)
  | .str s => !(s = "")
  | .arr items => !items.isEmpty
  | .obj fields => !fields.isEmpty

/-- `bool(obj.get(k))` for a dict (or non-dict) `j`. -/
def jtruthyAt (j : Json) (k : String) : Bool :=
  match jget j k with
  | some v => jtruthy v
  | none => false

/-- Python `str()` of a JSON value.  For containers Python renders a
`repr`; no claim inspects that case, so it is rendered abstractly. -/
def jsonToStr : Json → String
  | .str s => s
  | .num n => toString n
  | .bool true => "True"
  | .bool false => "False"
  | .null => "None"
  | .arr _ => "<list repr>"
  | .obj _ => "<dict repr>"

/-- `str(obj.get(k, ""))`. -/
def jgetStrD (j : Json) (k : String) : String :=
  match jget j k with
  | some v => jsonToStr v
  | none => ""

/-- `obj.get(k) == lit` for a string literal `lit` (Python `==`). -/
def jStrEq (o : Option Json) (lit : String) : Bool :=
  match o with
  | some (.str t) => t = lit
  | _ => false

/- ## Summarizer stream parsing (`summarize_with_gpt`, main.py 402-469) -/

/-- Items of a `response.output` / bare `output` array: concatenation of
`str(item.get("text",""))` over dict items with `type == "output_text"`. -/
def outputTexts : List Json → String
  | [] => ""
  | item :: rest =>
    (match item with
     | .obj _ => if jStrEq (jget item "type") "output_text" then jgetStrD item "text" else ""
     | _ => "") ++ outputTexts rest

/-- Entries of a `delta.content` array: concatenation of
`str(c.get("text",""))` over dict entries typed `output_text` or `text`. -/
def contentEntryTexts : List Json → String
  | [] => ""
  | c :: rest =>
    (match c with
     | .obj _ =>
       if jStrEq (jget c "type") "output_text" || jStrEq (jget c "type") "text" then
         jgetStrD c "text"
       else ""
     | _ => "") ++ contentEntryTexts rest

/-- Last shape check of the event loop (main.py 458-463): a bare top-level
`output` array of `output_text` items appends each item's text. -/
def finalPhase (content : String) (obj : Json) : String :=
  match jget obj "output" with
  | some (.arr out) => content ++ outputTexts out
  | _ => content

/-- Delta-style event shapes (main.py 440-456), falling through to
`finalPhase` exactly where the Python control flow does. -/
def deltaPhase (content : String) (obj : Json) : String :=
  if jStrEq (jget obj "type") "output_text.delta" then
    content ++ jgetStrD obj "delta"
  else if jStrEq (jget obj "type") "response.output_text.delta" then
    content ++ jgetStrD obj "delta"
  else if jStrEq (jget obj "type") "message.delta" || jStrEq (jget obj "type") "response.message.delta" then
    match jget obj "delta" with
    | some d =>
      (match d with
       | .obj _ =>
         (match jget d "content" with
          | some (.arr cs) => content ++ contentEntryTexts cs
          | _ => finalPhase content obj)
       | _ => finalPhase content obj)
    | none => finalPhase content obj
  else finalPhase content obj

/-- Process one JSON event of the SSE stream against the accumulating
buffer (main.py 423-463).  A truthy `output_text` (top level or under
`response`) replaces the buffer; a `response.output` array appends; the
delta shapes append via `deltaPhase`. -/
def processEvent (content : String) (obj : Json) : String :=
  if jtruthyAt obj "output_text" then
    pyStrip (jsonToStr ((jget obj "output_text").getD Json.null))
  else
    match jget obj "response" with
    | some resp =>
      (match resp with
       | .obj _ =>
         if jtruthyAt resp "output_text" then
           pyStrip (jsonToStr ((jget resp "output_text").getD Json.null))
         else
           (match jget resp "output" with
            | some (.arr out) => content ++ outputTexts out
            | _ => deltaPhase content obj)
       | _ => deltaPhase content obj)
    | none => deltaPhase content obj

/-- One line of the SSE response, after the `data:` framing has been
stripped: the terminal `[DONE]` marker, a well-formed JSON payload, a
payload `json.loads` rejects, or a line that is empty / not `data:`-framed. -/
inductive StreamEvent where
  | done
  | event (j : Json)
  | malformed
  | nonData

/-- The accumulation loop over the stream: `[DONE]` breaks, malformed and
non-data lines are skipped, JSON events are folded with `processEvent`. -/
def accumulate : String → List StreamEvent → String
  | c, [] => c
  | c, StreamEvent.done :: _ => c
  | c, StreamEvent.event j :: rest => accumulate (processEvent c j) rest
  | c, StreamEvent.malformed :: rest => accumulate c rest
  | c, StreamEvent.nonData :: rest => accumulate c rest

/-- Final result of the stream parse: the trimmed buffer, with an empty
result returned as `None` (main.py 464-469). -/
def summarizeResultOfStream (evs : List StreamEvent) : Option String :=
  let content := pyStrip (accumulate "" evs)
  if content = "" then none else some content

/-- Environment for one `summarize_with_gpt` call: whether `OPENAI_*` is
configured, the HTTP outcome (status code, or a raised request error), and
the streamed lines. -/
structure GptEnv where
  configured : Bool
  httpOutcome : Except PyErr Nat
  events : List StreamEvent

/-- `summarize_with_gpt` at the adapter boundary: every failure path
returns `none` (the function catches all exceptions itself). -/
def summarize_with_gpt (env : GptEnv) : Option String :=
  if !env.configured then none
  else
    match env.httpOutcome with
    | .error _ => none
    | .ok code => if code ≥ 400 then none else summarizeResultOfStream env.events

/- ## Link resolver (`resolve_plaud_audio_url`, main.py 47-149) -/

/-- `[0-9a-zA-Z]` for the share-token regex. -/
def isTokenChar (c : Char) : Bool := c.isAlpha || c.isDigit

/-- `re.search(r"/share/([0-9a-zA-Z]+)", url)`: at each position, try to
match the literal `/share/` followed by at least one token char; the
leftmost match wins and the token is the maximal run. -/
def shareTokenAux : List Char → Option String
  | [] => none
  | s@(_ :: rest) =>
    if startsWithL s "/share/".toList then
      let tok := (s.drop 7).takeWhile isTokenChar
      if tok.isEmpty then shareTokenAux rest else some (String.mk tok)
    else shareTokenAux rest

def extractShareToken (url : String) : Option String :=
  shareTokenAux url.toList

/-- `any(cand.lower().endswith(ext) for ext in (".mp3", ".m4a", ".wav"))`. -/
def lowerEndsWithAudioExt (s : String) : Bool :=
  let l := pyLower s
  strEndsWith l ".mp3" || strEndsWith l ".m4a" || strEndsWith l ".wav"

/-- `re.match(r"https?://.*\.(mp3|m4a|wav)(\?.*)?$", s, re.I)`: anchored at
the start, the string must carry the scheme and contain an audio extension
that is final or immediately followed by a query string running to the end
(strings here are URLs, assumed newline-free). -/
def matchesAudioUrlAnchored (s : String) : Bool :=
  let l := pyLower s
  (strStartsWith l "http://" || strStartsWith l "https://") &&
    (strEndsWith l ".mp3" || strEndsWith l ".m4a" || strEndsWith l ".wav" ||
     strContains l ".mp3?" || strContains l ".m4a?" || strContains l ".wav?")

/-- Response of the primary `share-file-temp` API call.  `ctJson` models
the `content-type` header check, `body` the `r.json()` value, and
`textAudioMatch` the result of the audio-URL regex search over `r.text`
(the regex itself being response-body scraping, it is carried as its
extraction result, per the conventions above). -/
structure TempResp where
  ctJson : Bool
  body : Json
  textAudioMatch : Option String

/-- Parse results of the share-page HTML fetch: the matches of the direct
audio-link `findall` (pass 1), the decoded `__NEXT_DATA__` JSON when the
script block exists and parses (pass 2), and the `(key, url)` pairs of the
generic JSON-key `findall` (pass 3). -/
structure PageHtml where
  audioCandidates : List String
  nextData : Option Json
  kvPairs : List (String × String)

/-- Outcomes of the at most three network calls a resolution can make;
`Except.error` is a raised request exception (connection error or
`raise_for_status`). -/
structure PlaudEnv where
  tempApi : Except String TempResp
  contentApi : Except String Json
  pageFetch : Except String PageHtml

/-- Result of a resolver run: the returned URL, the lines emitted through
the log callback, and which endpoints were contacted, in order. -/
structure ResolveOut where
  result : String
  logs : List String
  calls : List String
deriving DecidableEq, Repr

/-- Key loop of the primary API: first of
`temp_url, url, fileUrl, audioUrl, downloadUrl` whose value is a string
starting with `http`. -/
def tempKeyLoop (raw : Json) : List String → Option String
  | [] => none
  | k :: rest =>
    match jget raw k with
    | some (.str v) => if strStartsWith v "http" then some v else tempKeyLoop raw rest
    | _ => tempKeyLoop raw rest

/-- Candidate of the secondary API: with `d = data.get("data", data)`,
the first of `fileUrl, audioUrl, url` with a truthy value in the dict `d`. -/
def contentKeyLoop (d : Json) : List String → Option Json
  | [] => none
  | k :: rest =>
    match d with
    | .obj _ =>
      (match jget d k with
       | some v => if jtruthy v then some v else contentKeyLoop d rest
       | none => contentKeyLoop d rest)
    | _ => none

def contentCand (data : Json) : Option Json :=
  match data with
  | .obj _ => contentKeyLoop ((jget data "data").getD data) ["fileUrl", "audioUrl", "url"]
  | _ => none

/- `_walk_strings`: all string leaves of a JSON value, in order. -/
mutual
/-- String leaves of a JSON value, in order (`_walk_strings`). -/
def walkStrings : Json → List String
  | .str s => [s]
  | .arr items => walkStringsList items
  | .obj fields => walkStringsKVs fields
  | _ => []
def walkStringsList : List Json → List String
  | [] => []
  | j :: rest => walkStrings j ++ walkStringsList rest
def walkStringsKVs : List (String × Json) → List String
  | [] => []
  | (_, j) :: rest => walkStrings j ++ walkStringsKVs rest
end

/-- Pass 2 of the page scrape: first string leaf of the `__NEXT_DATA__`
JSON whose `/`-decoded form matches the anchored audio-URL pattern;
the decoded form is returned. -/
def nextDataHit : Option Json → Option String
  | none => none
  | some data =>
    ((walkStrings data).map (fun s => strReplace s "\\u002F" "/")).find? matchesAudioUrlAnchored

/-- Pass 3 of the page scrape: first candidate URL whose decoded form ends
with a known audio extension. -/
def kvHit : List (String × String) → Option String
  | [] => none
  | (_, candidate) :: rest =>
    let cand := strReplace candidate "\\u002F" "/"
    if lowerEndsWithAudioExt cand then some cand else kvHit rest

/-- Last-resort strategy (main.py 113-149): fetch the share page and run
the three scrape passes; any exception (or total miss) returns the
original URL. -/
def plaudPagePhase (url : String) (env : PlaudEnv) (logs calls : List String) : ResolveOut :=
  let calls := calls ++ ["share-page"]
  match env.pageFetch with
  | .error e =>
    { result := url
      logs := logs ++ ["Plaud resolution error: " ++ e ++ "; using original URL"]
      calls := calls }
  | .ok page =>
    match page.audioCandidates with
    | c :: _ => { result := c, logs := logs ++ ["Plaud resolved (html) -> " ++ c], calls := calls }
    | [] =>
      match nextDataHit page.nextData with
      | some sdec =>
        { result := sdec, logs := logs ++ ["Plaud resolved (next) -> " ++ sdec], calls := calls }
      | none =>
        match kvHit page.kvPairs with
        | some c =>
          { result := c, logs := logs ++ ["Plaud resolved (json) -> " ++ c], calls := calls }
        | none =>
          { result := url
            logs := logs ++ ["Plaud resolution failed; using original URL"]
            calls := calls }

/-- Secondary `share-content` API strategy (main.py 93-111).  A non-string
truthy candidate makes the logging string concatenation raise a
`TypeError`, which the handler catches before falling through (the
message text of that exception is abbreviated here). -/
def plaudContentPhase (url : String) (env : PlaudEnv) (logs calls : List String) : ResolveOut :=
  let calls := calls ++ ["share-content"]
  match env.contentApi with
  | .error e => plaudPagePhase url env (logs ++ ["Plaud content API failed: " ++ e]) calls
  | .ok data =>
    match contentCand data with
    | some (.str s) =>
      { result := s, logs := logs ++ ["Plaud content API resolved -> " ++ s], calls := calls }
    | some _ => plaudPagePhase url env (logs ++ ["Plaud content API failed: TypeError"]) calls
    | none => plaudPagePhase url env logs calls

/-- Primary `share-file-temp` API strategy (main.py 69-91).  The Python
`raw = data or r.text` makes `raw` the JSON body only when the
content-type is JSON and the body truthy; a dict `raw` is scanned for the
URL keys, anything else sends the audio-URL regex over `r.text`. -/
def plaudTempPhase (url : String) (env : PlaudEnv) (logs : List String) : ResolveOut :=
  let calls := ["share-file-temp"]
  match env.tempApi with
  | .error e => plaudContentPhase url env (logs ++ ["Plaud temp API failed: " ++ e]) calls
  | .ok resp =>
    match (if resp.ctJson && jtruthy resp.body then some resp.body else none) with
    | some raw@(.obj _) =>
      (match tempKeyLoop raw ["temp_url", "url", "fileUrl", "audioUrl", "downloadUrl"] with
       | some v =>
         { result := v, logs := logs ++ ["Plaud API resolved (temp) -> " ++ v], calls := calls }
       | none => plaudContentPhase url env logs calls)
    | _ =>
      match resp.textAudioMatch with
      | some v =>
        { result := v, logs := logs ++ ["Plaud API resolved (regex) -> " ++ v], calls := calls }
      | none => plaudContentPhase url env logs calls

/-- `resolve_plaud_audio_url` (main.py 47-149).  A URL without the
`plaud.ai` substring is returned unchanged before any logging or network
call; otherwise the strategies run in order and every failure path ends in
the original URL. -/
def resolve_plaud_audio_url (url : String) (env : PlaudEnv) : ResolveOut :=
  if !strContains url "plaud.ai" then { result := url, logs := [], calls := [] }
  else
    let logs := ["Resolving Plaud link ..."]
    match extractShareToken url with
    | some _ => plaudTempPhase url env logs
    | none => plaudPagePhase url env logs []

/-- Every way the primary `share-file-temp` strategy fails to produce a
URL (main.py 69-91): the call raises; or a truthy JSON dict body carries
none of the five URL keys with an http string value; or anything else
(non-JSON content-type, falsy or non-dict body) leaves the audio-URL
regex over `r.text` without a match. -/
def tempStrategyFails : Except String TempResp → Bool
  | .error _ => true
  | .ok resp =>
    match (if resp.ctJson && jtruthy resp.body then some resp.body else none) with
    | some (.obj kvs) =>
      (tempKeyLoop (Json.obj kvs) ["temp_url", "url", "fileUrl", "audioUrl", "downloadUrl"]).isNone
    | _ => resp.textAudioMatch.isNone

/-- Every way the secondary `share-content` strategy fails
(main.py 93-111): the call raises; or no truthy URL-keyed candidate
exists; or the candidate is truthy but not a string, so logging it raises
a `TypeError` that the handler catches before falling through. -/
def contentStrategyFails : Except String Json → Bool
  | .error _ => true
  | .ok data =>
    match contentCand data with
    | some (.str _) => false
    | _ => true

/-- Every way the page-scrape strategy fails (main.py 113-149): the fetch
raises, or none of the three passes yields an audio URL. -/
def pageStrategyFails : Except String PageHtml → Bool
  | .error _ => true
  | .ok page =>
    page.audioCandidates.isEmpty && (nextDataHit page.nextData).isNone
      && (kvHit page.kvPairs).isNone

/- ## Downloader (`download_audio_file` and `_guess_ext`, main.py 152-177, 1103-1117) -/

/-- `_guess_ext`: URL substring first (on the lowered URL), then
content-type tokens on the raw header value. -/
def guess_ext (url ctype : String) : String :=
  let url_low := pyLower url
  if strContains url_low ".mp3" then ".mp3"
  else if strContains url_low ".m4a" then ".m4a"
  else if strContains url_low ".wav" then ".wav"
  else if strContains ctype "mpeg" then ".mp3"
  else if strContains ctype "wav" then ".wav"
  else if strContains ctype "mp4" || strContains ctype "mp4a" || strContains ctype "aac" then ".m4a"
  else ".bin"

/-- `ext in (".mp3", ".m4a", ".wav")`. -/
def isAudioExt (ext : String) : Bool :=
  ext = ".mp3" || ext = ".m4a" || ext = ".wav"

/-- Environment of one download: a raised request/`raise_for_status`
exception if any, the `content-length` header (0 when absent, as
`int(r.headers.get("content-length", 0))` yields), the `content-type`
header, and the streamed chunks as (byte length, `time.time()` value). -/
structure DownloadEnv where
  httpError : Option PyErr
  contentLength : Nat
  ctype : String
  chunks : List (Nat × ℚ)

/-- The chunk loop (main.py 166-176): skip empty chunks, accumulate
`bytes_done`, and emit a progress value only when more than 0.1 s passed
since `last_emit` (initially 0).  Returns the final byte count and the
emitted progress values in order. -/
def dlLoop : List (Nat × ℚ) → Nat → ℚ → Nat × List Nat
  | [], bytes_done, _ => (bytes_done, [])
  | (len, now) :: rest, bytes_done, last_emit =>
    if len = 0 then dlLoop rest bytes_done last_emit
    else
      let bd := bytes_done + len
      if now - last_emit > 1/10 then
        let (fin, ps) := dlLoop rest bd now
        (fin, bd :: ps)
      else dlLoop rest bd last_emit

/-- `%.1f` of `bytes_done / total * 100`, rendered by round-half-up over
exact rationals (Python formats the IEEE double; the digits never carry
any claim). -/
def renderPct (bytes_done total : Nat) : String :=
  if total = 0 then "0.0"
  else
    let scaled := (bytes_done * 2000 + total) / (2 * total)
    toString (scaled / 10) ++ "." ++ toString (scaled % 10)

/-- One progress log line,
`f"download: {bytes_done}/{total or chr(63)} bytes ({pct:.1f}%)"`. -/
def mkProgressLine (bytes_done total : Nat) : String :=
  "download: " ++ toString bytes_done ++ "/" ++ (if total = 0 then "?" else toString total) ++
    " bytes (" ++ renderPct bytes_done total ++ "%)"

/-- Result of a download run: the `Except` outcome (file path, or the
raised exception), the bytes values of the emitted progress lines, the
final size of the written file, and the emitted log lines. -/
structure DownloadOut where
  outcome : Except PyErr String
  progress : List Nat
  fileSize : Nat
  logs : List String

/-- `download_audio_file` (main.py 152-177).  The content-type guard
raises `RuntimeError` when the lowered content-type contains neither
`audio` nor `octet-stream` and the guessed extension is not an audio one;
otherwise the chunks are streamed to `data/files/<jobId><ext>`. -/
def download_audio_file (job_id url : String) (env : DownloadEnv) : DownloadOut :=
  let logs0 := ["Downloading audio ..."]
  match env.httpError with
  | some pe => { outcome := .error pe, progress := [], fileSize := 0, logs := logs0 }
  | none =>
    let total := env.contentLength
    let ext := guess_ext url env.ctype
    let path := "data/files/" ++ job_id ++ ext
    let ctype := pyLower env.ctype
    if !(strContains ctype "audio" || strContains ctype "octet-stream" || isAudioExt ext) then
      { outcome := .error ("RuntimeError", "URL did not resolve to audio content-type (got " ++ ctype ++ ")")
        progress := []
        fileSize := 0
        logs := logs0 }
    else
      let (fin, ps) := dlLoop env.chunks 0 0
      { outcome := .ok path
        progress := ps
        fileSize := fin
        logs := logs0 ++ ps.map (fun b => mkProgressLine b total) }

/-- The spec's own error condition for §4.2 (claim C7's wording).
Modelled from the spec: fails iff the content-type is neither audio-like
nor octet-stream and the URL itself has no recognizable audio extension.
Kept for comparison against the source condition in `download_audio_file`,
which also accepts an extension inferred from the content-type. -/
def specContentTypeError (url ctype : String) : Bool :=
  let c := pyLower ctype
  let u := pyLower url
  !(strContains c "audio" || strContains c "octet-stream" ||
    strContains u ".mp3" || strContains u ".m4a" || strContains u ".wav")

/- ## Title extraction (`extract_title_from_summary` and
`generate_title_from_summary`, main.py 259-353) -/

/-- `re.sub(r"^#+\s*", "", summary, flags=re.MULTILINE)`: at every line
start, one or more `#` and then any whitespace run (which may swallow
newlines, so the next scan position is a line start only when the last
consumed char was a newline) are deleted.  `atStart` tracks whether the
current position follows a newline (or is position 0); every step consumes
at least one char, so the input length is enough fuel for the structural
recursion. -/
def stripHeadersAux : Nat → List Char → Bool → List Char
  | 0, _, _ => []
  | _ + 1, [], _ => []
  | fuel + 1, c :: cs, atStart =>
    if atStart && c = '#' then
      let afterHashes := cs.dropWhile (fun d => d = '#')
      let ws := afterHashes.takeWhile isPyWS
      let rest := afterHashes.dropWhile isPyWS
      stripHeadersAux fuel rest (match ws.getLast? with
        | some ch => ch = '\n'
        | none => false)
    else c :: stripHeadersAux fuel cs (c = '\n')

def stripMarkdownHeaders (s : String) : String :=
  String.mk (stripHeadersAux s.toList.length s.toList true)

/-- `[A-Z]` under `re.IGNORECASE`: any ASCII letter. -/
def isLetterCI (c : Char) : Bool := c.isAlpha

/-- `Topic|Subject|Meeting about|Discussion about|Overview`, tried in
alternation order, case-insensitively; returns the matched length. -/
def titleLabelAt (s : List Char) : Option Nat :=
  let ci : List Char → List Char → Bool := fun t p =>
    startsWithL (t.map Char.toLower) (p.map Char.toLower)
  if ci s "Topic".toList then some 5
  else if ci s "Subject".toList then some 7
  else if ci s "Meeting about".toList then some 13
  else if ci s "Discussion about".toList then some 16
  else if ci s "Overview".toList then some 8
  else none

def isColonOrWS (c : Char) : Bool := c = ':' || isPyWS c
def isCaptureChar1 (c : Char) : Bool := !(c = '\n' || c = '.')

/-- The first title pattern
`(?:Topic|Subject|Meeting about|Discussion about|Overview)[:\s]*([^\n.]+)`
tried at one position: after the label, the `[:\s]*` run is consumed
greedily; if the next char cannot start the capture, the regex backtracks
into the run — the last non-newline run char (followed only by newlines
and the blocking char) then forms a one-char capture. -/
def p1At (s : List Char) : Option (List Char) :=
  match titleLabelAt s with
  | none => none
  | some n =>
    let afterLabel := s.drop n
    let run := afterLabel.takeWhile isColonOrWS
    let after := afterLabel.dropWhile isColonOrWS
    match after with
    | c :: _ =>
      if c = '.' then
        (match (run.filter (fun d => !(d = '\n'))).getLast? with
         | some d => some [d]
         | none => none)
      else some (after.takeWhile isCaptureChar1)
    | [] =>
      match (run.filter (fun d => !(d = '\n'))).getLast? with
      | some d => some [d]
      | none => none

/-- `re.search` of the first pattern: leftmost matching position. -/
def p1SearchAux : List Char → Option (List Char)
  | [] => none
  | s@(_ :: rest) =>
    match p1At s with
    | some cap => some cap
    | none => p1SearchAux rest

def p1Search (s : String) : Option (List Char) :=
  p1SearchAux s.toList

def isCaptureChar2 (c : Char) : Bool := !(c = '.' || c = '!' || c = '?' || c = '\n')

/-- The second pattern `^([A-Z][^.!?\n]{10,50})` (with `re.IGNORECASE` the
class `[A-Z]` admits any letter) tried at one line start: a letter
followed by at least 10 and at most (greedily) 50 chars free of
sentence-ending punctuation and newlines. -/
def p2At : List Char → Option (List Char)
  | [] => none
  | c :: rest =>
    if isLetterCI c then
      let run := rest.takeWhile isCaptureChar2
      if run.length ≥ 10 then some (c :: run.take 50) else none
    else none

/-- `re.search` of the second pattern under `re.MULTILINE`: tried at
position 0 and after every newline, leftmost match first. -/
def p2SearchAux : List Char → Bool → Option (List Char)
  | [], _ => none
  | s@(c :: rest), atStart =>
    match (if atStart then p2At s else none) with
    | some cap => some cap
    | none => p2SearchAux rest (c = '\n')

def p2Search (s : String) : Option (List Char) :=
  p2SearchAux s.toList true

/-- `re.sub(r"[*_#]", "", title)`. -/
def removeMarkup (t : String) : String :=
  String.mk (t.toList.filter (fun c => !(c = '*' || c = '_' || c = '#')))

/-- `if len(title) > 50: title = title[:47] + "..."`. -/
def truncate50 (t : String) : String :=
  if t.length > 50 then t.take 47 ++ "..." else t

/-- A fallback line qualifies when its stripped form is non-empty and
longer than 10 chars (main.py 344-347). -/
def lineQualifies (line : String) : Bool :=
  let l := pyStrip line
  !(l = "") && l.length > 10

/-- `extract_title_from_summary` (main.py 317-353): empty input returns
`""`; otherwise markdown headers are stripped, the two patterns are tried
in order, then the first qualifying line of the first five; each hit is
cleaned of `* _ #` and truncated; with nothing at all, the fixed default
title is returned. -/
def extract_title_from_summary (summary : String) : String :=
  if summary = "" then ""
  else
    let s := stripMarkdownHeaders summary
    match p1Search s with
    | some cap => truncate50 (removeMarkup (pyStrip (String.mk cap)))
    | none =>
      match p2Search s with
      | some cap => truncate50 (removeMarkup (pyStrip (String.mk cap)))
      | none =>
        match ((pySplitLines s).take 5).find? lineQualifies with
        | some line => truncate50 (removeMarkup (pyStrip line))
        | none => "Meeting Summary"

def quoteChar : Char := Char.ofNat 34
def apostChar : Char := Char.ofNat 39

/-- Python `title.strip(chr(34) + chr(39))`: delete double/single quotes
from both ends. -/
def stripQuoteEnds (s : String) : String :=
  let isQ : Char → Bool := fun c => c = quoteChar || c = apostChar
  String.mk (((s.toList.dropWhile isQ).reverse.dropWhile isQ).reverse)

/-- `generate_title_from_summary` (main.py 259-314) at the adapter
boundary: `none` environment = `OPENAI_*` unconfigured; `some none` = the
chat call failed or returned non-200; `some (some content)` = the model
content.  An accepted API title must be non-empty and at most 60 chars
after stripping; every other path falls back to the deterministic
extraction. -/
def generate_title_from_summary (env : Option (Option String)) (summary : String) : String :=
  if summary = "" then ""
  else
    match env with
    | none => extract_title_from_summary summary
    | some apiContent =>
      match apiContent with
      | some content =>
        let title := stripQuoteEnds (pyStrip content)
        if !(title = "") && title.length ≤ 60 then title
        else extract_title_from_summary summary
      | none => extract_title_from_summary summary

/- ## Job store and pipeline orchestrator (`AppState`, main.py 493-945) -/

/-- Environment of one `run_job` pipeline run: the resolver's network
outcomes, the download environment, and the transcription / summarization
/ title stages at their adapter boundaries.  `transcribe` and `summarize`
are `Except` because `run_job` wraps the whole pipeline in a
`try/except Exception` whose handler is part of the modelled code; the
`*Logs` fields are the lines those stages emit through the log callback
before returning or raising. -/
structure RunEnv where
  plaud : PlaudEnv
  download : DownloadEnv
  transcribe : Except PyErr (Option String)
  transcribeLogs : List String
  summarize : Except PyErr (Option String)
  summarizeLogs : List String
  titleEnv : Option (Option String)

/-- The start guard of `run_job` (main.py 755):
`status in {"running", "downloading", "transcribing", "summarizing"}`. -/
def inPipelineGuard : JobStatus → Bool
  | .running => true
  | .downloading => true
  | .transcribing => true
  | .summarizing => true
  | _ => false

/-- `j["status"] = s`. -/
def jobSetStatus (j : Job) (s : JobStatus) : Job := { j with status := s }

/-- `j["resolved_url"] = r`. -/
def jobSetResolved (j : Job) (r : String) : Job := { j with resolved_url := some r }

/-- `j["file_path"] = fp`. -/
def jobSetFilePath (j : Job) (fp : String) : Job := { j with file_path := fp }

/-- `j["transcript"] = t or ""`. -/
def jobSetTranscript (j : Job) (t : Option String) : Job := { j with transcript := t.getD "" }

/-- The `except` handler of `run_job` (main.py 805-808):
`j["status"] = "error"; j["error"] = f"..."`. -/
def jobFail (j : Job) (pe : PyErr) : Job :=
  { j with status := JobStatus.error, error := pyErrStr pe }

/-- `j["summary"] = summary or ""` followed by
`if summary: j["title"] = generate_title_from_summary(summary)`
(main.py 792-795). -/
def jobSetSummaryTitle (j : Job) (s : Option String) (titleEnv : Option (Option String)) : Job :=
  { j with
      summary := s.getD ""
      title := if truthyOpt s then generate_title_from_summary titleEnv (s.getD "") else j.title }

/-- `AppState.run_job` (main.py 751-809), as the sequence of job states
after each mutation (each `_save()` boundary).  The guard returns before
any mutation or log line; otherwise the stages run in order, any raising
stage jumping to the `except` handler that records `status = "error"` and
the formatted exception. -/
def run_job_trace (j : Job) (e : RunEnv) : List Job :=
  if inPipelineGuard j.status then []
  else
    let a := jobSetStatus j JobStatus.running
    let b := appendLog a "Starting pipeline"
    let rr := resolve_plaud_audio_url j.url e.plaud
    let c := jobSetResolved (appendLogs b rr.logs) rr.result
    let d := jobSetStatus c JobStatus.downloading
    let dl := download_audio_file j.id rr.result e.download
    match dl.outcome with
    | .error pe =>
      let x := jobFail (appendLogs d dl.logs) pe
      [a, b, c, d, x, appendLog x ("ERROR: " ++ pyErrStr pe)]
    | .ok fp =>
      let e1 := jobSetFilePath (appendLogs d dl.logs) fp
      let e2 := appendLog e1 ("Downloaded to " ++ fp)
      let f := jobSetStatus e2 JobStatus.transcribing
      match e.transcribe with
      | .error pe =>
        let x := jobFail (appendLogs f e.transcribeLogs) pe
        [a, b, c, d, e1, e2, f, x, appendLog x ("ERROR: " ++ pyErrStr pe)]
      | .ok t? =>
        let g1 := jobSetTranscript (appendLogs f e.transcribeLogs) t?
        let g2 := appendLog g1 (if truthyOpt t? then
            "Transcription complete: " ++ toString (t?.getD "").length ++ " chars"
          else "Transcription skipped or failed; proceeding")
        let h := jobSetStatus g2 JobStatus.summarizing
        if g1.transcript = "" then
          let i1 := jobSetSummaryTitle h none e.titleEnv
          let i2 := appendLog i1 "Summary skipped or failed"
          let k := jobSetStatus i2 JobStatus.completed
          [a, b, c, d, e1, e2, f, g1, g2, h, i1, i2, k, appendLog k "Pipeline done."]
        else
          match e.summarize with
          | .error pe =>
            let x := jobFail (appendLogs h e.summarizeLogs) pe
            [a, b, c, d, e1, e2, f, g1, g2, h, x, appendLog x ("ERROR: " ++ pyErrStr pe)]
          | .ok s? =>
            let i0 := appendLogs h e.summarizeLogs
            let i1 := jobSetSummaryTitle i0 s? e.titleEnv
            let i2 := appendLog i1 (if truthyOpt s? then
                "Summary complete: " ++ toString (s?.getD "").length ++ " chars"
              else "Summary skipped or failed")
            let k := jobSetStatus i2 JobStatus.completed
            [a, b, c, d, e1, e2, f, g1, g2, h, i0, i1, i2, k, appendLog k "Pipeline done."]

/-- The job state after `run_job` returns (last snapshot; the job itself
when the guard fired). -/
def run_job (j : Job) (e : RunEnv) : Job :=
  (run_job_trace j e).getLastD j

/-- The store mutation of `AppState.retry_current` (main.py 818-824),
before the fresh `run_job` begins: full reset. -/
def retry_current_reset (j : Job) : Job :=
  { j with status := JobStatus.queued, error := "", logs := [], transcript := "", summary := "" }

/-- `AppState.retry_current` (main.py 811-826): full reset, then run. -/
def retry_current_trace (j : Job) (e : RunEnv) : List Job :=
  let r := retry_current_reset j
  r :: run_job_trace r e

/-- The store mutation of `AppState.retry_job` (main.py 903-908): status,
error and logs are reset, the transcript is untouched and the summary is
reassigned to itself (`"summary": j.get("summary", "")`). -/
def retry_job_reset (j : Job) : Job :=
  { j with status := JobStatus.queued, error := "", logs := [], summary := j.summary }

/-- `AppState.retry_job` (main.py 899-910): narrow reset, then run. -/
def retry_job_trace (j : Job) (e : RunEnv) : List Job :=
  let r := retry_job_reset j
  r :: run_job_trace r e

/-- Environment of one regenerate-summary run (the summarizer call at its
adapter boundary plus the title stage). -/
structure RegenEnv where
  summarize : Except PyErr (Option String)
  summarizeLogs : List String
  titleEnv : Option (Option String)

/-- `AppState.regenerate_summary_for` (main.py 870-897); the
selected-job variant `AppState.regenerate_summary` (main.py 912-945) has
the identical body with `job_id := current_job_id`.  An empty transcript
only logs; otherwise the job moves to `summarizing`, the summarizer and
title stages run, and the job ends `completed` (or `error` on a raise —
note the handler there sets only the status, not the `error` field). -/
def regenerate_summary_for_trace (j : Job) (e : RegenEnv) : List Job :=
  if j.transcript = "" then [appendLog j "No transcript available -> cannot summarize"]
  else
    let a := jobSetStatus { j with summary := "" } JobStatus.summarizing
    let b := appendLog a "Regenerating summary ..."
    match e.summarize with
    | .error pe =>
      let x := jobSetStatus (appendLogs b e.summarizeLogs) JobStatus.error
      [a, b, x, appendLog x ("ERROR: summarize: " ++ pe.2)]
    | .ok s? =>
      let c0 := appendLogs b e.summarizeLogs
      let c := jobSetSummaryTitle c0 s? e.titleEnv
      let d := jobSetStatus c JobStatus.completed
      [a, b, c0, c, d, appendLog d (if truthyOpt s? then
          "Summary regenerated: " ++ toString (s?.getD "").length ++ " chars"
        else "Summary regeneration returned empty")]

/-- The job record built by `AppState.add_job` (main.py 728-742);
creation always starts at `queued` with empty stage fields. -/
def mkJob (job_id url meeting_date : String) (created_at : Nat) (created_label : String) : Job :=
  { id := job_id
    url := url
    status := JobStatus.queued
    created_at := created_at
    created_label := created_label
    meeting_date := meeting_date
    title := ""
    path := "/job/" ++ job_id
    error := ""
    file_path := ""
    transcript := ""
    summary := ""
    logs := []
    resolved_url := none }

/-- The per-job reset performed by `AppState.clear` (main.py 517-523). -/
def clear_reset (j : Job) : Job :=
  { j with logs := [], transcript := "", summary := "", error := "", status := JobStatus.queued }

/-- `_get_job` returns the first job with the id, so `clear` mutates the
first match (ids are unique in practice; the embedding keeps the
first-match semantics). -/
def clearFirst : List Job → String → List Job
  | [], _ => []
  | j :: rest, cid => if j.id = cid then clear_reset j :: rest else j :: clearFirst rest cid

/-- `AppState.clear` (main.py 515-526): with a truthy selected id the
matching job is reset in place; with no selection the whole store is
emptied. -/
def clear (jobs : List Job) (current_job_id : String) : List Job :=
  if current_job_id = "" then [] else clearFirst jobs current_job_id

/- ## Per-job operation sequences (for the §4.6 state-machine claims) -/

/-- One public operation applied to a single job (create is the trace
start, `mkJob`).  `delete` removes the job (its artifact cleanup does not
touch the status). -/
inductive JobOp where
  | runOp (e : RunEnv)
  | retryFullOp (e : RunEnv)
  | retryKeepOp (e : RunEnv)
  | regenOp (e : RegenEnv)
  | deleteOp

/-- The job snapshots an operation produces. -/
def opTrace (j : Job) : JobOp → List Job
  | .runOp e => run_job_trace j e
  | .retryFullOp e => retry_current_trace j e
  | .retryKeepOp e => retry_job_trace j e
  | .regenOp e => regenerate_summary_for_trace j e
  | .deleteOp => []

/-- The job after an operation (`none` once deleted). -/
def applyOp (j : Job) : JobOp → Option Job
  | .deleteOp => none
  | op => some ((opTrace j op).getLastD j)

/-- All statuses a job passes through under a sequence of operations
(operations on a deleted job are the no-ops `_get_job` makes them). -/
def opsStatuses : Option Job → List JobOp → List JobStatus
  | _, [] => []
  | none, _ :: rest => opsStatuses none rest
  | some j, op :: rest => (opTrace j op).map Job.status ++ opsStatuses (applyOp j op) rest

/-- The transition graph claimed from §4.6: pipeline order, in-pipeline
states to `error`, retry to `queued` from `error` or `completed` only,
and regenerate-summary into `summarizing` from any state.
Modelled from the spec for comparison with `codeAllowed`. -/
def specAllowed : JobStatus → JobStatus → Bool
  | .queued, .running => true
  | .running, .downloading => true
  | .downloading, .transcribing => true
  | .transcribing, .summarizing => true
  | .summarizing, .completed => true
  | .running, .error => true
  | .downloading, .error => true
  | .transcribing, .error => true
  | .summarizing, .error => true
  | .error, .queued => true
  | .completed, .queued => true
  | _, .summarizing => true
  | _, _ => false

/-- The transition graph the code actually follows: `specAllowed` plus
retry to `queued` from any state (the retry operations have no status
guard) and `run` starting from `error` or `completed` (its guard blocks
only in-pipeline states). -/
def codeAllowed : JobStatus → JobStatus → Bool
  | .error, .running => true
  | .completed, .running => true
  | _, .queued => true
  | a, b => specAllowed a b

/-- A status change is a self-loop (no change at a save point) or an edge
of the graph `g`. -/
def StepR (g : JobStatus → JobStatus → Bool) (a b : JobStatus) : Prop :=
  a = b ∨ g a b = true

instance (g : JobStatus → JobStatus → Bool) (a b : JobStatus) : Decidable (StepR g a b) :=
  inferInstanceAs (Decidable (_ ∨ _))

/- ## Concrete fixtures used to evaluate the model on closed inputs -/

/-- A resolver environment in which every network call succeeds but no
strategy finds an audio URL: the temp API returns a JSON dict without any
URL key, the content API returns a `data` wrapper without a candidate, and
the share page carries no direct link, no parsed page data and only a
non-audio `url` key. -/
def envPlaudSoftFail : PlaudEnv :=
  { tempApi := .ok { ctJson := true, body := Json.obj [("status", Json.num 404)], textAudioMatch := none }
    contentApi := .ok (Json.obj [("data", Json.obj [("name", Json.str "recording")])])
    pageFetch := .ok { audioCandidates := []
                       nextData := none
                       kvPairs := [("url", "https://web.plaud.ai/page.html")] } }

/-- A resolver environment in which every network call raises. -/
def envPlaudAllFail : PlaudEnv :=
  { tempApi := .error "ConnectionError"
    contentApi := .error "ConnectionError"
    pageFetch := .error "ConnectionError" }

/-- A download environment whose initial request raises. -/
def envDlHttpErr : DownloadEnv :=
  { httpError := some ("ConnectionError", "refused"), contentLength := 0, ctype := "", chunks := [] }

/-- A small successful download: two chunks arriving 1 s apart. -/
def envDlOk : DownloadEnv :=
  { httpError := none, contentLength := 7, ctype := "audio/mpeg", chunks := [(4, 1), (3, 2)] }

/-- Download environment of the throttling scenario: the second chunk
arrives 0.05 s after the first emission. -/
def envDlThrottle : DownloadEnv :=
  { httpError := none, contentLength := 8, ctype := "audio/mpeg", chunks := [(5, 1), (3, 21/20)] }

/-- Download environment of the content-type scenario: header
`video/mpeg`, no audio extension in the URL. -/
def envDlMpeg : DownloadEnv :=
  { httpError := none, contentLength := 4, ctype := "video/mpeg", chunks := [(4, 1)] }

/-- A run environment in which the download fails at the request. -/
def envRunDlFail : RunEnv :=
  { plaud := envPlaudAllFail
    download := envDlHttpErr
    transcribe := .ok none
    transcribeLogs := []
    summarize := .ok none
    summarizeLogs := []
    titleEnv := none }

/-- A regenerate environment whose summarizer succeeds. -/
def envRegenOk : RegenEnv :=
  { summarize := .ok (some "new summary"), summarizeLogs := ["GPT call complete"], titleEnv := none }

/-- A job caught mid-`downloading`. -/
def jobDownloading : Job :=
  { mkJob "a1" "https://example.com/a.mp3" "" 0 "" with
      status := JobStatus.downloading
      logs := ["Starting pipeline"] }

/-- A completed job with stage outputs and logs present. -/
def jobCompleted : Job :=
  { mkJob "b2" "https://example.com/b.mp3" "2025-01-02" 0 "" with
      status := JobStatus.completed
      transcript := "some transcript"
      summary := "some summary"
      title := "a title"
      file_path := "data/files/b2.mp3"
      resolved_url := some "https://example.com/b.mp3"
      logs := ["Starting pipeline", "Pipeline done."] }

/-- The two-delta summarization stream of the spec scenario. -/
def scenarioEvents : List StreamEvent :=
  [ StreamEvent.event (Json.obj [("type", Json.str "response.output_text.delta"), ("delta", Json.str "Hello ")])
  , StreamEvent.event (Json.obj [("type", Json.str "response.output_text.delta"), ("delta", Json.str "world")])
  , StreamEvent.done ]

/-- `true` iff a download ended in the `.ok` path. -/
def outcomeOk (d : DownloadOut) : Bool :=
  match d.outcome with
  | .ok _ => true
  | .error _ => false

/-- Executable check that consecutive statuses are equal or `g`-edges. -/
def chainOk (g : JobStatus → JobStatus → Bool) : List JobStatus → Bool
  | [] => true
  | [_] => true
  | a :: b :: rest => (a = b || g a b) && chainOk g (b :: rest)

/- # Theorems -/

/- ## Projection lemmas for the job mutators -/

@[simp] theorem appendLog_status (j : Job) (s : String) : (appendLog j s).status = j.status := rfl
@[simp] theorem appendLogs_status (j : Job) (ls : List String) : (appendLogs j ls).status = j.status := rfl
@[simp] theorem jobSetStatus_status (j : Job) (s : JobStatus) : (jobSetStatus j s).status = s := rfl
@[simp] theorem jobSetResolved_status (j : Job) (r : String) : (jobSetResolved j r).status = j.status := rfl
@[simp] theorem jobSetFilePath_status (j : Job) (fp : String) : (jobSetFilePath j fp).status = j.status := rfl
@[simp] theorem jobSetTranscript_status (j : Job) (t : Option String) : (jobSetTranscript j t).status = j.status := rfl
@[simp] theorem jobFail_status (j : Job) (pe : PyErr) : (jobFail j pe).status = JobStatus.error := rfl
@[simp] theorem jobSetSummaryTitle_status (j : Job) (s : Option String) (te : Option (Option String)) :
    (jobSetSummaryTitle j s te).status = j.status := rfl
@[simp] theorem jobSetTranscript_transcript (j : Job) (t : Option String) :
    (jobSetTranscript j t).transcript = t.getD "" := rfl
@[simp] theorem appendLog_transcript (j : Job) (s : String) : (appendLog j s).transcript = j.transcript := rfl
@[simp] theorem appendLogs_transcript (j : Job) (ls : List String) : (appendLogs j ls).transcript = j.transcript := rfl
@[simp] theorem jobSetStatus_transcript (j : Job) (s : JobStatus) : (jobSetStatus j s).transcript = j.transcript := rfl
@[simp] theorem jobSetSummaryTitle_transcript (j : Job) (s : Option String) (te : Option (Option String)) :
    (jobSetSummaryTitle j s te).transcript = j.transcript := rfl
@[simp] theorem appendLog_resolved (j : Job) (s : String) : (appendLog j s).resolved_url = j.resolved_url := rfl
@[simp] theorem appendLogs_resolved (j : Job) (ls : List String) : (appendLogs j ls).resolved_url = j.resolved_url := rfl
@[simp] theorem jobSetStatus_resolved (j : Job) (s : JobStatus) : (jobSetStatus j s).resolved_url = j.resolved_url := rfl
@[simp] theorem jobSetSummaryTitle_resolved (j : Job) (s : Option String) (te : Option (Option String)) :
    (jobSetSummaryTitle j s te).resolved_url = j.resolved_url := rfl
@[simp] theorem appendLog_filePath (j : Job) (s : String) : (appendLog j s).file_path = j.file_path := rfl
@[simp] theorem appendLogs_filePath (j : Job) (ls : List String) : (appendLogs j ls).file_path = j.file_path := rfl
@[simp] theorem jobSetStatus_filePath (j : Job) (s : JobStatus) : (jobSetStatus j s).file_path = j.file_path := rfl
@[simp] theorem jobSetSummaryTitle_filePath (j : Job) (s : Option String) (te : Option (Option String)) :
    (jobSetSummaryTitle j s te).file_path = j.file_path := rfl
@[simp] theorem retry_current_reset_status (j : Job) :
    (retry_current_reset j).status = JobStatus.queued := rfl
@[simp] theorem retry_job_reset_status (j : Job) :
    (retry_job_reset j).status = JobStatus.queued := rfl

/- ## Status-chain machinery for the §4.6 state machine -/

theorem chainOk_sound (g : JobStatus → JobStatus → Bool) :
    ∀ l : List JobStatus, chainOk g l = true → List.Chain' (StepR g) l := by
  intro l
  induction l with
  | nil => intro _; exact List.chain'_nil
  | cons a rest ih =>
    cases rest with
    | nil => intro _; exact List.chain'_singleton a
    | cons b tl =>
      intro h
      rw [chainOk, Bool.and_eq_true, Bool.or_eq_true] at h
      refine List.chain'_cons.mpr ⟨?_, ih h.2⟩
      rcases h.1 with h1 | h1
      · exact Or.inl (by simpa using h1)
      · exact Or.inr h1

theorem guard_false_step_running (s : JobStatus) :
    inPipelineGuard s = false → StepR codeAllowed s JobStatus.running := by
  cases s <;> decide

theorem stepR_any_to_queued (s : JobStatus) : StepR codeAllowed s JobStatus.queued := by
  cases s <;> exact Or.inr rfl

theorem stepR_any_to_summarizing (s : JobStatus) : StepR codeAllowed s JobStatus.summarizing := by
  cases s <;> exact Or.inr rfl

set_option maxHeartbeats 1600000 in
theorem run_job_trace_chain (j : Job) (e : RunEnv) :
    List.Chain' (StepR codeAllowed) (j.status :: (run_job_trace j e).map Job.status) := by
  by_cases hg : inPipelineGuard j.status = true
  · simp [run_job_trace, hg]
  · have hg' : inPipelineGuard j.status = false := by simpa using hg
    have h1 := guard_false_step_running j.status hg'
    unfold run_job_trace
    rw [if_neg hg]
    simp only []
    generalize resolve_plaud_audio_url j.url e.plaud = rr
    generalize download_audio_file j.id rr.result e.download = dl
    generalize e.transcribe = tr
    generalize e.summarize = sm
    rcases dl with ⟨dout, dprog, dsize, dlogs⟩
    rcases dout with pe | fp <;> dsimp only
    · simp only [List.map_cons, List.map_nil, appendLog_status, appendLogs_status,
        jobSetStatus_status, jobSetResolved_status, jobFail_status]
      exact List.chain'_cons.mpr ⟨h1, chainOk_sound _ _ rfl⟩
    · rcases tr with pe | tres <;> dsimp only
      · simp only [List.map_cons, List.map_nil, appendLog_status, appendLogs_status,
          jobSetStatus_status, jobSetResolved_status, jobSetFilePath_status, jobFail_status]
        exact List.chain'_cons.mpr ⟨h1, chainOk_sound _ _ rfl⟩
      · simp only [jobSetTranscript_transcript]
        by_cases ht : tres.getD "" = ""
        · simp only [if_pos ht]
          simp only [List.map_cons, List.map_nil, appendLog_status, appendLogs_status,
            jobSetStatus_status, jobSetResolved_status, jobSetFilePath_status,
            jobSetTranscript_status, jobSetSummaryTitle_status]
          exact List.chain'_cons.mpr ⟨h1, chainOk_sound _ _ rfl⟩
        · simp only [if_neg ht]
          rcases sm with pe | sres <;> dsimp only
          · simp only [List.map_cons, List.map_nil, appendLog_status, appendLogs_status,
              jobSetStatus_status, jobSetResolved_status, jobSetFilePath_status,
              jobSetTranscript_status, jobFail_status]
            exact List.chain'_cons.mpr ⟨h1, chainOk_sound _ _ rfl⟩
          · simp only [List.map_cons, List.map_nil, appendLog_status, appendLogs_status,
              jobSetStatus_status, jobSetResolved_status, jobSetFilePath_status,
              jobSetTranscript_status, jobSetSummaryTitle_status]
            exact List.chain'_cons.mpr ⟨h1, chainOk_sound _ _ rfl⟩

theorem retry_current_trace_chain (j : Job) (e : RunEnv) :
    List.Chain' (StepR codeAllowed) (j.status :: (retry_current_trace j e).map Job.status) := by
  unfold retry_current_trace
  dsimp only [List.map_cons]
  refine List.chain'_cons.mpr ⟨?_, ?_⟩
  · rw [retry_current_reset_status]; exact stepR_any_to_queued j.status
  · exact run_job_trace_chain (retry_current_reset j) e

theorem retry_job_trace_chain (j : Job) (e : RunEnv) :
    List.Chain' (StepR codeAllowed) (j.status :: (retry_job_trace j e).map Job.status) := by
  unfold retry_job_trace
  dsimp only [List.map_cons]
  refine List.chain'_cons.mpr ⟨?_, ?_⟩
  · rw [retry_job_reset_status]; exact stepR_any_to_queued j.status
  · exact run_job_trace_chain (retry_job_reset j) e

theorem regen_trace_chain (j : Job) (e : RegenEnv) :
    List.Chain' (StepR codeAllowed) (j.status :: (regenerate_summary_for_trace j e).map Job.status) := by
  unfold regenerate_summary_for_trace
  by_cases ht : j.transcript = ""
  · rw [if_pos ht]
    dsimp only [List.map_cons, List.map_nil, appendLog_status]
    exact List.chain'_cons.mpr ⟨Or.inl rfl, List.chain'_singleton _⟩
  · rw [if_neg ht]
    rcases hs : e.summarize with pe | sres <;> dsimp only
    · simp only [List.map_cons, List.map_nil, appendLog_status, appendLogs_status,
        jobSetStatus_status]
      refine List.chain'_cons.mpr ⟨stepR_any_to_summarizing j.status, ?_⟩
      exact chainOk_sound _ _ rfl
    · simp only [List.map_cons, List.map_nil, appendLog_status, appendLogs_status,
        jobSetStatus_status, jobSetSummaryTitle_status]
      refine List.chain'_cons.mpr ⟨stepR_any_to_summarizing j.status, ?_⟩
      exact chainOk_sound _ _ rfl

theorem opTrace_chain (j : Job) (op : JobOp) :
    List.Chain' (StepR codeAllowed) (j.status :: (opTrace j op).map Job.status) := by
  cases op with
  | runOp e => exact run_job_trace_chain j e
  | retryFullOp e => exact retry_current_trace_chain j e
  | retryKeepOp e => exact retry_job_trace_chain j e
  | regenOp e => exact regen_trace_chain j e
  | deleteOp => exact List.chain'_singleton _

theorem getLast?_status_cons (l : List Job) (j : Job) :
    (j.status :: l.map Job.status).getLast? = some ((l.getLastD j).status) := by
  induction l generalizing j with
  | nil => rfl
  | cons a tl ih =>
    rw [List.map_cons, List.getLast?_cons_cons, ih a, List.getLastD_cons]

theorem opsStatuses_none (ops : List JobOp) : opsStatuses none ops = [] := by
  induction ops with
  | nil => rfl
  | cons op rest ih => rw [opsStatuses]; exact ih

theorem chain'_append_link {α : Type} {R : α → α → Prop} {l m : List α} {x : α}
    (hl : List.Chain' R l) (hlast : l.getLast? = some x) (hxm : List.Chain' R (x :: m)) :
    List.Chain' R (l ++ m) := by
  rw [List.chain'_append]
  refine ⟨hl, (List.chain'_cons'.mp hxm).2, ?_⟩
  intro a ha b hb
  rw [hlast] at ha
  rw [Option.mem_some_iff] at ha
  subst ha
  exact (List.chain'_cons'.mp hxm).1 b hb

theorem opsStatuses_chain : ∀ (ops : List JobOp) (j : Job),
    List.Chain' (StepR codeAllowed) (j.status :: opsStatuses (some j) ops) := by
  intro ops
  induction ops with
  | nil => intro j; exact List.chain'_singleton _
  | cons op rest ih =>
    intro j
    rw [show opsStatuses (some j) (op :: rest)
        = (opTrace j op).map Job.status ++ opsStatuses (applyOp j op) rest from rfl]
    by_cases hdel : op = JobOp.deleteOp
    · subst hdel
      simp only [opTrace, List.map_nil, List.nil_append, applyOp, opsStatuses_none]
      exact List.chain'_singleton _
    · have happ : applyOp j op = some ((opTrace j op).getLastD j) := by
        cases op <;> first | rfl | exact absurd rfl hdel
      rw [happ, ← List.cons_append]
      exact chain'_append_link (opTrace_chain j op) (getLast?_status_cons _ j)
        (ih ((opTrace j op).getLastD j))

/- ## Claim theorems -/

/-- Claim C1, counterexample: a job caught mid-`downloading` that receives
a retry (`retry_job`) moves straight to `queued`, although the claimed
graph of §4.6 lets retry reach `queued` only from `error` or `completed` —
the retry operations have no status guard. -/
theorem c1_counterexample :
    jobDownloading.status = JobStatus.downloading ∧
    (opsStatuses (some jobDownloading) [JobOp.retryKeepOp envRunDlFail]).head?
      = some JobStatus.queued ∧
    specAllowed JobStatus.downloading JobStatus.queued = false :=
  ⟨rfl, rfl, rfl⟩

/-- Claim C1 (amended): for every job created by `add_job` and every
sequence of public operations, consecutive statuses are equal or follow
`codeAllowed`: the §4.6 graph extended with retry-to-`queued` from any
state and run-start from `error` or `completed`.  In particular the only
`codeAllowed` edge into `transcribing` is from `downloading`, so no job
reaches `transcribing` without having been in `downloading`. -/
theorem c1_status_transitions_amended :
    (∀ (job_id url meeting_date : String) (created_at : Nat) (created_label : String)
      (ops : List JobOp),
      List.Chain' (StepR codeAllowed)
        (JobStatus.queued :: opsStatuses (some (mkJob job_id url meeting_date created_at created_label)) ops))
    ∧ (∀ a : JobStatus, codeAllowed a JobStatus.transcribing = decide (a = JobStatus.downloading)) := by
  constructor
  · intro job_id url meeting_date created_at created_label ops
    exact opsStatuses_chain ops (mkJob job_id url meeting_date created_at created_label)
  · intro a; cases a <;> rfl

/-- Claim C2: starting `run_job` on a job whose status is in the guard set
`{running, downloading, transcribing, summarizing}` is a no-op — the trace
is empty (no mutation, no log line, nothing saved) and the job is
unchanged in every field. -/
theorem c2_run_guard_noop (j : Job) (e : RunEnv)
    (h : inPipelineGuard j.status = true) :
    run_job_trace j e = [] ∧ run_job j e = j := by
  constructor
  · unfold run_job_trace; rw [if_pos h]
  · unfold run_job run_job_trace; rw [if_pos h]; rfl

/-- Claim C2, witness at a job mid-`downloading`. -/
theorem c2_run_guard_noop_witness :
    inPipelineGuard jobDownloading.status = true ∧
    (run_job_trace jobDownloading envRunDlFail = [] ∧
      run_job jobDownloading envRunDlFail = jobDownloading) :=
  ⟨rfl, c2_run_guard_noop jobDownloading envRunDlFail rfl⟩

/-- Claim C3: on a `completed` job, `retry_current` first writes the full
reset — status `queued` and empty `logs`, `transcript`, `summary`,
`error` — as the head of its trace, before the fresh `run_job` begins. -/
theorem c3_retry_full_reset (j : Job) (e : RunEnv)
    (h : j.status = JobStatus.completed) :
    (retry_current_trace j e).head? = some (retry_current_reset j) ∧
    (retry_current_reset j).status = JobStatus.queued ∧
    (retry_current_reset j).logs = [] ∧
    (retry_current_reset j).transcript = "" ∧
    (retry_current_reset j).summary = "" ∧
    (retry_current_reset j).error = "" :=
  ⟨rfl, rfl, rfl, rfl, rfl, rfl⟩

/-- Claim C3, witness at a concrete completed job. -/
theorem c3_retry_full_reset_witness :
    jobCompleted.status = JobStatus.completed ∧
    ((retry_current_trace jobCompleted envRunDlFail).head?
        = some (retry_current_reset jobCompleted) ∧
      (retry_current_reset jobCompleted).status = JobStatus.queued ∧
      (retry_current_reset jobCompleted).logs = [] ∧
      (retry_current_reset jobCompleted).transcript = "" ∧
      (retry_current_reset jobCompleted).summary = "" ∧
      (retry_current_reset jobCompleted).error = "") :=
  ⟨rfl, c3_retry_full_reset jobCompleted envRunDlFail rfl⟩

/-- Claim C4: for a job with non-empty transcript, no state the
regenerate-summary operation passes through (whatever the summarizer and
title calls do — success, empty result, or a raise into the handler)
changes `transcript`, `resolved_url`, or `file_path`. -/
theorem c4_regen_frame (j : Job) (e : RegenEnv) (h : j.transcript ≠ "") :
    ∀ j' ∈ regenerate_summary_for_trace j e,
      j'.transcript = j.transcript ∧ j'.resolved_url = j.resolved_url ∧
        j'.file_path = j.file_path := by
  intro j' hj'
  unfold regenerate_summary_for_trace at hj'
  rw [if_neg h] at hj'
  rcases hs : e.summarize with pe | sres <;> rw [hs] at hj' <;> dsimp only at hj' <;>
    simp only [List.mem_cons, List.not_mem_nil, or_false] at hj'
  · rcases hj' with rfl | rfl | rfl | rfl <;>
      simp [appendLog, appendLogs, jobSetStatus]
  · rcases hj' with rfl | rfl | rfl | rfl | rfl | rfl <;>
      simp [appendLog, appendLogs, jobSetStatus, jobSetSummaryTitle]

/-- Claim C4, witness: the first snapshot of a regenerate run on a
completed job with a transcript keeps the three fields. -/
theorem c4_regen_frame_witness :
    jobCompleted.transcript ≠ "" ∧
    ((jobSetStatus { jobCompleted with summary := "" } JobStatus.summarizing).transcript
        = jobCompleted.transcript ∧
      (jobSetStatus { jobCompleted with summary := "" } JobStatus.summarizing).resolved_url
        = jobCompleted.resolved_url ∧
      (jobSetStatus { jobCompleted with summary := "" } JobStatus.summarizing).file_path
        = jobCompleted.file_path) := by
  have h : jobCompleted.transcript ≠ "" := by decide
  refine ⟨h, c4_regen_frame jobCompleted envRegenOk h _ ?_⟩
  unfold regenerate_summary_for_trace
  rw [if_neg h]
  dsimp only
  exact List.mem_cons_self _ _

/-- Claim C5: the two-delta scenario stream yields the summary
`"Hello world"`, and in general `processEvent` appends the `delta` field
of an event typed `output_text.delta` or `response.output_text.delta` to
the buffer (the final buffer is trimmed by `summarizeResultOfStream`). -/
theorem c5_summarize_stream :
    summarizeResultOfStream scenarioEvents = some "Hello world" ∧
    (∀ content d : String,
      processEvent content (Json.obj [("type", Json.str "output_text.delta"), ("delta", Json.str d)])
        = content ++ d) ∧
    (∀ content d : String,
      processEvent content (Json.obj [("type", Json.str "response.output_text.delta"), ("delta", Json.str d)])
        = content ++ d) :=
  ⟨rfl, fun _ _ => rfl, fun _ _ => rfl⟩

/-- The page-scrape phase returns the original URL whenever the page
strategy fails in any mode (raised fetch, or all three passes missing). -/
theorem plaudPagePhase_fallback (url : String) (env : PlaudEnv) (logs calls : List String)
    (h : pageStrategyFails env.pageFetch = true) :
    (plaudPagePhase url env logs calls).result = url := by
  unfold plaudPagePhase
  cases hpf : env.pageFetch with
  | error e => rfl
  | ok page =>
    rw [hpf] at h
    unfold pageStrategyFails at h
    rw [Bool.and_eq_true, Bool.and_eq_true] at h
    obtain ⟨⟨h1, h2⟩, h3⟩ := h
    cases hac : page.audioCandidates with
    | cons c tl => rw [hac] at h1; simp at h1
    | nil =>
      rw [Option.isNone_iff_eq_none] at h2 h3
      dsimp only
      rw [hac, h2, h3]

/-- The content-API phase falls through to the original URL whenever the
secondary and page strategies both fail in any mode. -/
theorem plaudContentPhase_fallback (url : String) (env : PlaudEnv) (logs calls : List String)
    (hc : contentStrategyFails env.contentApi = true)
    (hp : pageStrategyFails env.pageFetch = true) :
    (plaudContentPhase url env logs calls).result = url := by
  unfold plaudContentPhase
  cases hca : env.contentApi with
  | error e => exact plaudPagePhase_fallback url env _ _ hp
  | ok data =>
    rw [hca] at hc
    unfold contentStrategyFails at hc
    dsimp only at hc
    dsimp only
    cases hcc : contentCand data with
    | none => exact plaudPagePhase_fallback url env _ _ hp
    | some v =>
      rw [hcc] at hc
      cases v with
      | str t => dsimp only at hc; exact absurd hc (by decide)
      | null => exact plaudPagePhase_fallback url env _ _ hp
      | bool b => exact plaudPagePhase_fallback url env _ _ hp
      | num n => exact plaudPagePhase_fallback url env _ _ hp
      | arr items => exact plaudPagePhase_fallback url env _ _ hp
      | obj kvs => exact plaudPagePhase_fallback url env _ _ hp

/-- The temp-API phase falls through to the original URL whenever all
three strategies fail in any mode. -/
theorem plaudTempPhase_fallback (url : String) (env : PlaudEnv) (logs : List String)
    (ht : tempStrategyFails env.tempApi = true)
    (hc : contentStrategyFails env.contentApi = true)
    (hp : pageStrategyFails env.pageFetch = true) :
    (plaudTempPhase url env logs).result = url := by
  unfold plaudTempPhase
  cases hta : env.tempApi with
  | error e => exact plaudContentPhase_fallback url env _ _ hc hp
  | ok resp =>
    rw [hta] at ht
    unfold tempStrategyFails at ht
    dsimp only at ht
    dsimp only
    cases hbr : (if resp.ctJson && jtruthy resp.body then some resp.body else none) with
    | none =>
      rw [hbr] at ht
      dsimp only at ht
      rw [Option.isNone_iff_eq_none] at ht
      rw [ht]
      exact plaudContentPhase_fallback url env _ _ hc hp
    | some raw =>
      rw [hbr] at ht
      cases raw <;> dsimp only at ht ⊢ <;>
        rw [Option.isNone_iff_eq_none] at ht <;> rw [ht] <;>
        exact plaudContentPhase_fallback url env _ _ hc hp

/-- Claim C6: the resolver's fallback contract.  A URL without the
`plaud.ai` substring is returned unchanged with no log line and no network
call; and whenever every strategy that runs fails — in any mode, a raised
network call or a response in which nothing URL-shaped is found — the
original URL is returned, both when a share token is present (all three
strategies run) and when it is absent (only the page scrape runs).
(`resolve_plaud_audio_url` is a total function of its environment — the
embedding has no failure outcome to return.) -/
theorem c6_resolver_fallback (url : String) (env : PlaudEnv) :
    (strContains url "plaud.ai" = false →
      resolve_plaud_audio_url url env = { result := url, logs := [], calls := [] }) ∧
    (tempStrategyFails env.tempApi = true → contentStrategyFails env.contentApi = true →
      pageStrategyFails env.pageFetch = true →
      (resolve_plaud_audio_url url env).result = url) ∧
    (extractShareToken url = none → pageStrategyFails env.pageFetch = true →
      (resolve_plaud_audio_url url env).result = url) := by
  refine ⟨?_, ?_, ?_⟩
  · intro h
    unfold resolve_plaud_audio_url
    rw [h]
    rfl
  · intro ht hc hp
    unfold resolve_plaud_audio_url
    by_cases hb : strContains url "plaud.ai"
    · rw [hb]
      cases htok : extractShareToken url <;> dsimp only
      · exact plaudPagePhase_fallback url env _ _ hp
      · exact plaudTempPhase_fallback url env _ ht hc hp
    · rw [Bool.not_eq_true] at hb
      rw [hb]
      rfl
  · intro htok hp
    unfold resolve_plaud_audio_url
    by_cases hb : strContains url "plaud.ai"
    · rw [hb, htok]
      dsimp only
      exact plaudPagePhase_fallback url env _ _ hp
    · rw [Bool.not_eq_true] at hb
      rw [hb]
      rfl

/-- Claim C6, witness: a direct `.mp3` URL passes through untouched with
no calls; a share URL comes back unchanged when every call succeeds but no
strategy finds an audio URL (soft failures); and a token-less `plaud.ai`
URL comes back unchanged when the page fetch raises. -/
theorem c6_resolver_fallback_witness :
    (strContains "https://example.com/a.mp3" "plaud.ai" = false ∧
      resolve_plaud_audio_url "https://example.com/a.mp3" envPlaudSoftFail
        = { result := "https://example.com/a.mp3", logs := [], calls := [] }) ∧
    (tempStrategyFails envPlaudSoftFail.tempApi = true ∧
      contentStrategyFails envPlaudSoftFail.contentApi = true ∧
      pageStrategyFails envPlaudSoftFail.pageFetch = true ∧
      (resolve_plaud_audio_url "https://web.plaud.ai/share/abc123" envPlaudSoftFail).result
        = "https://web.plaud.ai/share/abc123") ∧
    (extractShareToken "https://web.plaud.ai/home" = none ∧
      pageStrategyFails envPlaudAllFail.pageFetch = true ∧
      (resolve_plaud_audio_url "https://web.plaud.ai/home" envPlaudAllFail).result
        = "https://web.plaud.ai/home") :=
  ⟨⟨rfl, (c6_resolver_fallback "https://example.com/a.mp3" envPlaudSoftFail).1 rfl⟩,
    ⟨rfl, rfl, rfl,
      (c6_resolver_fallback "https://web.plaud.ai/share/abc123" envPlaudSoftFail).2.1
        rfl rfl rfl⟩,
    ⟨rfl, rfl,
      (c6_resolver_fallback "https://web.plaud.ai/home" envPlaudAllFail).2.2 rfl rfl⟩⟩

/-- Claim C7, counterexample: with content-type `video/mpeg` and a URL
carrying no audio extension, the claim's condition (neither audio-like nor
octet-stream, no URL audio extension) holds, yet the download succeeds —
`_guess_ext` infers `.mp3` from the `mpeg` content-type token, and the
guard accepts that inferred extension. -/
theorem c7_counterexample :
    specContentTypeError "https://example.com/file" "video/mpeg" = true ∧
    (download_audio_file "j1" "https://example.com/file" envDlMpeg).outcome
      = .ok "data/files/j1.mp3" :=
  ⟨rfl, rfl⟩

/-- Claim C7 (amended): absent a request error, the download fails (with
the content-type `RuntimeError`) exactly when the lowered content-type
contains neither `audio` nor `octet-stream` and the extension that
`_guess_ext` infers from URL substrings and content-type tokens is not one
of `.mp3`/`.m4a`/`.wav`; on success the returned path is the job-id file
with that inferred extension. -/
theorem c7_download_ctype_amended (job_id url : String) (env : DownloadEnv)
    (h : env.httpError = none) :
    (outcomeOk (download_audio_file job_id url env)
      = (strContains (pyLower env.ctype) "audio" || strContains (pyLower env.ctype) "octet-stream"
          || isAudioExt (guess_ext url env.ctype))) ∧
    (∀ p, (download_audio_file job_id url env).outcome = .ok p
      → p = "data/files/" ++ job_id ++ guess_ext url env.ctype) := by
  unfold download_audio_file
  rw [h]
  dsimp only
  by_cases hc : (strContains (pyLower env.ctype) "audio" || strContains (pyLower env.ctype) "octet-stream"
      || isAudioExt (guess_ext url env.ctype)) = true
  · rw [hc, if_neg (by simp)]
    rcases hdl : dlLoop env.chunks 0 0 with ⟨fin, ps⟩
    dsimp only [outcomeOk]
    refine ⟨rfl, ?_⟩
    intro p hp
    exact (Except.ok.inj hp).symm
  · rw [Bool.not_eq_true] at hc
    rw [hc, if_pos (by simp)]
    dsimp only [outcomeOk]
    refine ⟨rfl, ?_⟩
    intro p hp
    exact absurd hp (by simp)

/-- Claim C7, witness: a successful audio download returns the inferred
path. -/
theorem c7_download_ctype_amended_witness :
    envDlOk.httpError = none ∧
    outcomeOk (download_audio_file "j1" "https://example.com/a.mp3" envDlOk) = true ∧
    "data/files/j1.mp3" = "data/files/" ++ "j1" ++ guess_ext "https://example.com/a.mp3" envDlOk.ctype := by
  refine ⟨rfl, ?_, ?_⟩
  · rw [(c7_download_ctype_amended "j1" "https://example.com/a.mp3" envDlOk rfl).1]
    rfl
  · exact (c7_download_ctype_amended "j1" "https://example.com/a.mp3" envDlOk rfl).2
      "data/files/j1.mp3" rfl

/-- Loop invariant of `dlLoop`: the byte counter only grows, the emitted
progress values form a non-decreasing (indeed increasing) chain, and every
emitted value lies between the starting counter and the final counter. -/
theorem dlLoop_spec : ∀ (chunks : List (Nat × ℚ)) (bd : Nat) (le : ℚ),
    bd ≤ (dlLoop chunks bd le).1
    ∧ List.Chain' (fun a b => a ≤ b) (dlLoop chunks bd le).2
    ∧ ∀ b ∈ (dlLoop chunks bd le).2, bd ≤ b ∧ b ≤ (dlLoop chunks bd le).1 := by
  intro chunks
  induction chunks with
  | nil =>
    intro bd le
    refine ⟨le_refl _, ?_, ?_⟩ <;> simp [dlLoop]
  | cons c rest ih =>
    rcases c with ⟨len, now⟩
    intro bd le
    rw [dlLoop]
    by_cases h0 : len = 0
    · rw [if_pos h0]; exact ih bd le
    · rw [if_neg h0]
      by_cases hem : now - le > 1/10
      · rw [if_pos hem]
        obtain ⟨h1, h2, h3⟩ := ih (bd + len) now
        rcases hrec : dlLoop rest (bd + len) now with ⟨fin, ps⟩
        rw [hrec] at h1 h2 h3
        dsimp only at h1 h2 h3 ⊢
        refine ⟨le_trans (Nat.le_add_right bd len) h1, ?_, ?_⟩
        · refine List.chain'_cons'.mpr ⟨?_, h2⟩
          intro y hy
          rcases ps with _ | ⟨p0, ptl⟩
          · simp at hy
          · rw [List.head?_cons, Option.mem_some_iff] at hy
            subst hy
            exact (h3 p0 (List.mem_cons_self _ _)).1
        · intro b hb
          rcases List.mem_cons.mp hb with rfl | hb
          · exact ⟨Nat.le_add_right bd len, h1⟩
          · obtain ⟨hb1, hb2⟩ := h3 b hb
            exact ⟨le_trans (Nat.le_add_right bd len) hb1, hb2⟩
      · rw [if_neg hem]
        obtain ⟨h1, h2, h3⟩ := ih (bd + len) le
        refine ⟨le_trans (Nat.le_add_right bd len) h1, h2, ?_⟩
        intro b hb
        obtain ⟨hb1, hb2⟩ := h3 b hb
        exact ⟨le_trans (Nat.le_add_right bd len) hb1, hb2⟩

/-- Claim C8 (amended): for every download, the progress lines report
monotonically non-decreasing bytes values, each at most the final file
size; but no terminal line is forced — the 100 ms throttle can drop the
final line, so the last emitted value may be below the file size. -/
theorem c8_download_progress_amended (job_id url : String) (env : DownloadEnv) :
    List.Chain' (fun a b => a ≤ b) (download_audio_file job_id url env).progress
    ∧ ∀ b ∈ (download_audio_file job_id url env).progress,
        b ≤ (download_audio_file job_id url env).fileSize := by
  unfold download_audio_file
  cases hh : env.httpError with
  | some pe => exact ⟨List.chain'_nil, by simp⟩
  | none =>
    dsimp only
    by_cases hc : (strContains (pyLower env.ctype) "audio"
        || strContains (pyLower env.ctype) "octet-stream"
        || isAudioExt (guess_ext url env.ctype)) = true
    · rw [hc, if_neg (by simp)]
      obtain ⟨h1, h2, h3⟩ := dlLoop_spec env.chunks 0 0
      rcases hrec : dlLoop env.chunks 0 0 with ⟨fin, ps⟩
      rw [hrec] at h1 h2 h3
      dsimp only at h2 h3 ⊢
      exact ⟨h2, fun b hb => (h3 b hb).2⟩
    · rw [Bool.not_eq_true] at hc
      rw [hc, if_pos (by simp)]
      exact ⟨List.chain'_nil, by simp⟩

/-- Claim C8, counterexample: a download whose second (final) chunk
arrives 0.05 s after the first emission emits no terminal progress line —
the last emitted bytes value (5) is below the final file size (8). -/
theorem c8_counterexample :
    (download_audio_file "j1" "u" envDlThrottle).progress = [5] ∧
    (download_audio_file "j1" "u" envDlThrottle).fileSize = 8 ∧
    (download_audio_file "j1" "u" envDlThrottle).progress.getLast?
      ≠ some (download_audio_file "j1" "u" envDlThrottle).fileSize := by
  have hdl : dlLoop envDlThrottle.chunks 0 0 = (8, [5]) := by
    show dlLoop [((5 : Nat), (1 : ℚ)), (3, 21/20)] 0 0 = (8, [5])
    norm_num [dlLoop]
  have hprog : (download_audio_file "j1" "u" envDlThrottle).progress = [5] := by
    unfold download_audio_file
    rw [show envDlThrottle.httpError = none from rfl]
    dsimp only
    rw [if_neg (by decide), hdl]
  have hsize : (download_audio_file "j1" "u" envDlThrottle).fileSize = 8 := by
    unfold download_audio_file
    rw [show envDlThrottle.httpError = none from rfl]
    dsimp only
    rw [if_neg (by decide), hdl]
  refine ⟨hprog, hsize, ?_⟩
  intro hcontra
  rw [hprog, hsize] at hcontra
  simp at hcontra

/-- Claim C9, counterexample: on the empty summary
`extract_title_from_summary` returns the empty string — not the fixed
default title the claim promises for every summary in which nothing
matches (the function's first line is `if not summary: return ""`). -/
theorem c9_counterexample :
    extract_title_from_summary "" = "" ∧ ("" : String) ≠ "Meeting Summary" :=
  ⟨rfl, by decide⟩

/-- Claim C9 (amended): the deterministic extraction never fails, but the
empty summary maps to `""`; for every non-empty summary in which neither
pattern matches and none of the first five lines qualifies (stripped
length over 10), the fixed default `"Meeting Summary"` is returned; a
qualifying result is truncated to 50 chars as 47 chars plus an ellipsis
exactly when the cleaned text exceeds 50 chars. -/
theorem c9_title_extraction_amended :
    (extract_title_from_summary "" = "") ∧
    (∀ s : String, s ≠ "" →
      p1Search (stripMarkdownHeaders s) = none →
      p2Search (stripMarkdownHeaders s) = none →
      (∀ line ∈ (pySplitLines (stripMarkdownHeaders s)).take 5, lineQualifies line = false) →
      extract_title_from_summary s = "Meeting Summary") ∧
    (∀ t : String, t.length > 50 → truncate50 t = t.take 47 ++ "...") ∧
    (∀ t : String, ¬ t.length > 50 → truncate50 t = t) := by
  refine ⟨rfl, ?_, ?_, ?_⟩
  · intro s hs h1 h2 h3
    unfold extract_title_from_summary
    rw [if_neg hs]
    dsimp only
    rw [h1, h2]
    have hfind : ((pySplitLines (stripMarkdownHeaders s)).take 5).find? lineQualifies = none := by
      rw [List.find?_eq_none]
      intro x hx hcontra
      rw [h3 x hx] at hcontra
      exact Bool.false_ne_true hcontra
    rw [hfind]
  · intro t ht; unfold truncate50; rw [if_pos ht]
  · intro t ht; unfold truncate50; rw [if_neg ht]

/-- Claim C9, witness: a two-line summary with only short lines yields the
default title; a 51-char string is truncated with the ellipsis and a short
one is untouched. -/
theorem c9_title_extraction_amended_witness :
    (("hi\nyo" : String) ≠ "" ∧ extract_title_from_summary "hi\nyo" = "Meeting Summary") ∧
    (("e23456789012345678901234567890123456789012345678901" : String).length > 50 ∧
      truncate50 "e23456789012345678901234567890123456789012345678901"
        = "e23456789012345678901234567890123456789012345678901".take 47 ++ "...") ∧
    (¬ ("ab" : String).length > 50 ∧ truncate50 "ab" = "ab") := by
  refine ⟨⟨by decide, c9_title_extraction_amended.2.1 "hi\nyo" (by decide) rfl rfl (by decide)⟩,
    ⟨by decide, c9_title_extraction_amended.2.2.1 _ (by decide)⟩,
    ⟨by decide, c9_title_extraction_amended.2.2.2 _ (by decide)⟩⟩

/-- With unique job ids, resetting the first match equals resetting every
match (there is at most one) and leaving everything else untouched. -/
theorem clearFirst_eq_map (cid : String) :
    ∀ jobs : List Job, (jobs.map Job.id).Nodup →
      clearFirst jobs cid = jobs.map (fun j => if j.id = cid then clear_reset j else j) := by
  intro jobs
  induction jobs with
  | nil => intro _; rfl
  | cons a tl ih =>
    intro hnodup
    rw [List.map_cons] at hnodup
    rw [clearFirst, List.map_cons]
    by_cases ha : a.id = cid
    · rw [if_pos ha]
      have htl : ∀ x ∈ tl, (if x.id = cid then clear_reset x else x) = x := by
        intro x hx
        have hxid : x.id ≠ cid := by
          intro heq
          exact (List.nodup_cons.mp hnodup).1
            (ha ▸ heq ▸ List.mem_map_of_mem Job.id hx)
        rw [if_neg hxid]
      rw [List.map_congr_left htl, List.map_id', if_pos ha]
    · rw [if_neg ha, if_neg ha, ih (List.nodup_cons.mp hnodup).2]

/-- Claim C10: `AppState.clear` with a truthy selected id resets exactly
the selected job — status to `queued`, `logs`/`transcript`/`summary`/
`error` emptied, all other fields and all other jobs untouched — while an
empty selection removes every job from the store. -/
theorem c10_clear_behaviour (jobs : List Job) (cid : String) :
    (cid = "" → clear jobs cid = []) ∧
    (cid ≠ "" → (jobs.map Job.id).Nodup →
      clear jobs cid = jobs.map (fun j => if j.id = cid then clear_reset j else j)) ∧
    (∀ j : Job, (clear_reset j).status = JobStatus.queued ∧ (clear_reset j).logs = [] ∧
      (clear_reset j).transcript = "" ∧ (clear_reset j).summary = "" ∧
      (clear_reset j).error = "" ∧ (clear_reset j).id = j.id ∧ (clear_reset j).url = j.url ∧
      (clear_reset j).title = j.title ∧ (clear_reset j).file_path = j.file_path ∧
      (clear_reset j).resolved_url = j.resolved_url ∧
      (clear_reset j).meeting_date = j.meeting_date) := by
  refine ⟨?_, ?_, ?_⟩
  · intro h; unfold clear; rw [if_pos h]
  · intro h hnodup
    unfold clear
    rw [if_neg h]
    exact clearFirst_eq_map cid jobs hnodup
  · intro j
    exact ⟨rfl, rfl, rfl, rfl, rfl, rfl, rfl, rfl, rfl, rfl, rfl⟩

/-- Claim C10, witness on a two-job store: empty selection clears the
store, selecting the first job's id resets only that job. -/
theorem c10_clear_behaviour_witness :
    (("" : String) = "" ∧ clear [jobCompleted, jobDownloading] "" = []) ∧
    (("b2" : String) ≠ "" ∧ (([jobCompleted, jobDownloading].map Job.id).Nodup) ∧
      clear [jobCompleted, jobDownloading] "b2"
        = [clear_reset jobCompleted, jobDownloading]) := by
  refine ⟨⟨rfl, (c10_clear_behaviour [jobCompleted, jobDownloading] "").1 rfl⟩,
    ⟨by decide, by decide, ?_⟩⟩
  rw [(c10_clear_behaviour [jobCompleted, jobDownloading] "b2").2.1 (by decide) (by decide)]
  rfl

/-- Claim C8, witness: in a two-chunk download whose chunks arrive 1 s
apart, the first emitted value is bounded by the final file size. -/
theorem c8_download_progress_amended_witness :
    4 ∈ (download_audio_file "j1" "https://example.com/a.mp3" envDlOk).progress ∧
    4 ≤ (download_audio_file "j1" "https://example.com/a.mp3" envDlOk).fileSize := by
  have hdl : dlLoop envDlOk.chunks 0 0 = (7, [4, 7]) := by
    show dlLoop [((4 : Nat), (1 : ℚ)), (3, 2)] 0 0 = (7, [4, 7])
    norm_num [dlLoop]
  have hprog : (download_audio_file "j1" "https://example.com/a.mp3" envDlOk).progress = [4, 7] := by
    unfold download_audio_file
    rw [show envDlOk.httpError = none from rfl]
    dsimp only
    rw [if_neg (by decide), hdl]
  have hmem : 4 ∈ (download_audio_file "j1" "https://example.com/a.mp3" envDlOk).progress := by
    rw [hprog]
    decide
  exact ⟨hmem,
    (c8_download_progress_amended "j1" "https://example.com/a.mp3" envDlOk).2 4 hmem⟩
